import Mathlib

/-!
Verification of the Bahoy recommendation-and-evaluation engine
(`app/services/recommender.py`, `app/services/metrics.py`,
`app/services/bias_analysis.py`) against its natural-language specification.

The store (PostgreSQL via SQLAlchemy) is shallowly embedded as explicit
lists of rows; each service method becomes a pure Lean function of the
store, the current time (`ahora : ℤ`, seconds; `datetime.now(timezone.utc)`
is passed explicitly) and the method arguments.  SQL queries are embedded
as stable filters / stable merge sorts over the row lists, which fixes an
order where SQL leaves ties unspecified.  `Decimal`/`float` arithmetic is
embedded as exact rational arithmetic (`ℚ`), with Python's `round(x, 4)`
embedded as exact round-half-to-even at 4 decimal places.  Database ids
(UUIDs) are embedded as their canonical string forms.  Fallible Python
code (functions that can raise `ValueError`) returns `Except PyError`.
-/

namespace Bahoy

/-- Python exceptions that the embedded code can raise. -/
inductive PyError where
  | valueError : PyError
deriving DecidableEq, Repr

instance {ε α : Type} [DecidableEq ε] [DecidableEq α] : DecidableEq (Except ε α) := fun a b =>
  match a, b with
  | .error e, .error f => decidable_of_iff (e = f) (by simp)
  | .ok x, .ok y => decidable_of_iff (x = y) (by simp)
  | .error _, .ok _ => isFalse (fun hh => Except.noConfusion hh)
  | .ok _, .error _ => isFalse (fun hh => Except.noConfusion hh)

/-! ## Data model (`app/models/`) -/

/-- `InteractionType` enum (`app/models/interaction.py`). -/
inductive InteractionType where
  | vista
  | clic
  | guardado
  | compartido
  | asistio
deriving DecidableEq, Repr

/-- `Category` row (`app/models/category.py`): id and name. -/
structure Category where
  id : String
  nombre : String
deriving DecidableEq, Repr

/-- `Venue` row (`app/models/venue.py`), fields used by the engine. -/
structure Venue where
  id : String
  nombre : String
  barrio : Option String
  direccion : Option String
deriving DecidableEq, Repr

/-- `Event` row (`app/models/event.py`), fields used by the engine.
`categoria` and `venue` embed the rows reachable through `categoria_id` /
`venue_id` (the code always loads them with `selectinload`); timestamps are
seconds (`ℤ`); `Numeric` prices are `ℚ`. -/
structure Event where
  id : String
  titulo : String
  descripcion : Option String
  categoria : Option Category
  subcategorias : List String
  fecha_inicio : Option Int
  fecha_fin : Option Int
  venue : Option Venue
  precio_min : Option ℚ
  precio_max : Option ℚ
  es_gratuito : Bool
  imagen_url : Option String
  url_fuente : Option String
  tags : List String
  embedding : Option (List ℚ)
  source_id : Option String
deriving DecidableEq, Repr

/-- `Event.categoria_id`: the FK column, consistent with the loaded relation. -/
def Event.categoria_id (e : Event) : Option String :=
  e.categoria.map Category.id

/-- `Interaction` row (`app/models/interaction.py`). -/
structure Interaction where
  user_id : String
  event_id : String
  tipo : InteractionType
  timestamp : Int
deriving DecidableEq, Repr

/-- `RecommendationImpression` row (`app/models/impression.py`). -/
structure Impression where
  user_id : String
  event_ids : List String
  tipo_recomendacion : String
  timestamp : Int
deriving DecidableEq, Repr

/-- A `\x7bmin, max\x7d` price range inside the preferences JSON. -/
structure Rango where
  min : Option ℚ
  max : Option ℚ
deriving DecidableEq, Repr

/-- The JSON `preferencias` dict of a user, as read by
`recomendar_para_usuario`: list-valued keys default to `[]` when absent,
the two range keys are `none` when absent. -/
structure Prefs where
  categorias_favoritas : List String
  barrios_preferidos : List String
  rango_precio : Option Rango
  rango_precios : Option Rango
  tags_interes : List String
deriving DecidableEq, Repr

/-- The empty preferences dict (`prefs = user.preferencias or \x7b\x7d`). -/
def Prefs.empty : Prefs :=
  ⟨[], [], none, none, []⟩

/-- `User` row (`app/models/user.py`), fields used by the engine. -/
structure User where
  id : String
  preferencias : Option Prefs
deriving DecidableEq, Repr

/-- The whole relational store: one list of rows per table read by the
engine (venues, categories and sources are embedded inside events). -/
structure Store where
  events : List Event
  users : List User
  interactions : List Interaction
  impressions : List Impression
deriving DecidableEq, Repr

/-! ## Query building blocks -/

/-- `Event.fecha_inicio >= ahora` (SQL: `NULL >= x` is not true). -/
def esFuturo (ahora : Int) (e : Event) : Bool :=
  match e.fecha_inicio with
  | some f => decide (ahora ≤ f)
  | none => false

/-- Sort key for `order_by(Event.fecha_inicio.asc())`; only applied after
filtering with `esFuturo`, where `fecha_inicio` is present. -/
def fechaKey (e : Event) : Int :=
  e.fecha_inicio.getD 0

/-- `order_by(Event.fecha_inicio.asc())`, determinized as a stable sort. -/
def sortPorFecha (l : List Event) : List Event :=
  l.mergeSort (fun a b => decide (fechaKey a ≤ fechaKey b))

/-! ## Serialization (`RecommenderService._serializar_evento`) -/

/-- The `venue` sub-dict produced by `_serializar_evento`. -/
structure SerVenue where
  id : String
  nombre : String
  barrio : Option String
  direccion : Option String
deriving DecidableEq, Repr

/-- The JSON dict produced by `_serializar_evento` (its `categoria` key
holds the category *name*; ISO-formatted timestamps are kept as the
underlying seconds, `isoformat` being injective). -/
structure SerEvent where
  id : String
  titulo : String
  descripcion : Option String
  categoria : Option String
  subcategorias : List String
  fecha_inicio : Option Int
  fecha_fin : Option Int
  venue : Option SerVenue
  precio_min : Option ℚ
  precio_max : Option ℚ
  es_gratuito : Bool
  imagen_url : Option String
  url_fuente : Option String
  tags : List String
deriving DecidableEq, Repr

/-- One element of a recommendation response: the `\x7b"event": ..., "razon": ...\x7d` dict. -/
structure RecItem where
  event : SerEvent
  razon : String
deriving DecidableEq, Repr

/-- `RecommenderService._serializar_evento`. -/
def serializarEvento (e : Event) : SerEvent :=
  { id := e.id
    titulo := e.titulo
    descripcion := e.descripcion
    categoria := e.categoria.map Category.nombre
    subcategorias := e.subcategorias
    fecha_inicio := e.fecha_inicio
    fecha_fin := e.fecha_fin
    venue := e.venue.map (fun v => ⟨v.id, v.nombre, v.barrio, v.direccion⟩)
    precio_min := e.precio_min
    precio_max := e.precio_max
    es_gratuito := e.es_gratuito
    imagen_url := e.imagen_url
    url_fuente := e.url_fuente
    tags := e.tags }

/-! ## Diversification (`RecommenderService._diversificar`) -/

/-- `cat_key = str(event.categoria_id) if event.categoria_id else "sin_categoria"`. -/
def catKey (e : Event) : String :=
  match e.categoria_id with
  | some c => c
  | none => "sin_categoria"

/-- Increment one key of the `Counter`. -/
def bump (f : String → Nat) (k : String) : String → Nat :=
  fun s => if s = k then f k + 1 else f s

/-- The loop of `_diversificar`: walk the scored list carrying the
per-category `Counter` and the current result length; stop at `limite`;
admit an item only while its category count is below `maxPorCat`
(an item over the cap is skipped, nothing else is done with it). -/
def _diversificarAux (maxPorCat limite : Nat) :
    (String → Nat) → Nat → List (ℚ × Event × String) → List (Event × String)
  | _, _, [] => []
  | contador, nRes, (_, e, r) :: rest =>
    if limite ≤ nRes then []
    else if contador (catKey e) < maxPorCat then
      (e, r) :: _diversificarAux maxPorCat limite (bump contador (catKey e)) (nRes + 1) rest
    else
      _diversificarAux maxPorCat limite contador nRes rest

/-- The events admitted by `_diversificar`, before serialization. -/
def _diversificarEvents (scored : List (ℚ × Event × String)) (maxPorCat limite : Nat) :
    List (Event × String) :=
  _diversificarAux maxPorCat limite (fun _ => 0) 0 scored

/-- `RecommenderService._diversificar` (the loop body serializes each
admitted event; the serialization is factored out of the loop). -/
def _diversificar (scored : List (ℚ × Event × String)) (maxPorCat limite : Nat) :
    List RecItem :=
  (_diversificarEvents scored maxPorCat limite).map (fun p => ⟨serializarEvento p.1, p.2⟩)

/-! ## Python `uuid.UUID` string parsing

`_get_user` / `_get_evento` call `uuid.UUID(id_string)`, which raises
`ValueError` on a malformed string.  CPython normalizes the argument with
`hex.replace("urn:", "").replace("uuid:", "").strip("\x7b\x7d").replace("-", "")`,
requires the remainder to have length exactly 32, and then delegates to
`int(hex, 16)`, which itself strips surrounding ASCII whitespace and
accepts an optional sign, an optional `0x`/`0X` prefix, and single
underscores between digits (also one directly after the prefix).  A `-`
cannot survive the dash removal, so only `+` can occur as a sign.
`pyUUIDCanon` embeds this pipeline: it returns `str(uuid.UUID(s))` — the
canonical lowercase 8-4-4-4-12 form of the parsed 128-bit value,
`"%032x"`-zero-padded — on success and `none` (a raised `ValueError`)
otherwise.  (CPython first maps non-ASCII Unicode decimal digits and
spaces to ASCII; the model takes ASCII input, where that map is the
identity.) -/

/-- Remove every occurrence of `pat` from `l`, left to right, without
rescanning the replaced region (Python `str.replace(pat, "")`). -/
def removeSub : List Char → List Char → List Char
  | _, [] => []
  | [], l => l
  | p :: ps, c :: cs =>
    if p = c ∧ ps.isPrefixOf cs then removeSub (p :: ps) (cs.drop ps.length)
    else c :: removeSub (p :: ps) cs
termination_by _ l => l.length
decreasing_by
  all_goals simp_wf <;> omega

/-- The two brace characters stripped by `str.strip` in the parser. -/
def esLlave (c : Char) : Bool :=
  c = Char.ofNat 123 || c = Char.ofNat 125

/-- Python `str.strip("\x7b\x7d")`: drop any leading and trailing braces. -/
def stripLlaves (l : List Char) : List Char :=
  ((l.dropWhile esLlave).reverse.dropWhile esLlave).reverse

/-- A hexadecimal digit as accepted by `int(s, 16)`. -/
def esHexDigito (c : Char) : Bool :=
  c.isDigit || (Char.ofNat 97 ≤ c && c ≤ Char.ofNat 102)
    || (Char.ofNat 65 ≤ c && c ≤ Char.ofNat 70)

/-- Reinsert the dashes of the canonical 8-4-4-4-12 UUID text form. -/
def conGuiones (h : List Char) : List Char :=
  h.take 8 ++ [Char.ofNat 45] ++ (h.drop 8).take 4 ++ [Char.ofNat 45]
    ++ (h.drop 12).take 4 ++ [Char.ofNat 45] ++ (h.drop 16).take 4
    ++ [Char.ofNat 45] ++ h.drop 20

/-- The ASCII whitespace stripped by `int(s, 16)`. -/
def esEspacioPy (c : Char) : Bool :=
  c = ' ' || (Char.ofNat 9 ≤ c && c ≤ Char.ofNat 13)

/-- Scan the digit part of `int(s, 16)`: hexadecimal digits with single
underscores allowed only between digits (and, when the flag starts true,
one directly after the `0x` prefix); returns the digits with underscores
removed. -/
def pyHexScan : Bool → List Char → Option (List Char)
  | _, [] => some []
  | undOk, c :: rest =>
    if esHexDigito c then (pyHexScan true rest).map (fun ds => c :: ds)
    else if c = Char.ofNat 95 ∧ undOk then
      match rest with
      | [] => none
      | d :: rest2 =>
        if esHexDigito d then (pyHexScan true rest2).map (fun ds => d :: ds)
        else none
    else none

/-- `int(s, 16)` on a character list: strip surrounding ASCII whitespace,
drop an optional `+` sign (a `-` cannot reach this point), drop an
optional `0x`/`0X` prefix, then scan digits-with-underscores; `some`
holds the hexadecimal digits of the value, `none` is a `ValueError`. -/
def pyIntHex16 (l : List Char) : Option (List Char) :=
  let t := ((l.dropWhile esEspacioPy).reverse.dropWhile esEspacioPy).reverse
  let t := match t with
    | c :: rest => if c = '+' then rest else c :: rest
    | [] => []
  let scanned := match t with
    | c1 :: c2 :: rest =>
      if c1 = '0' ∧ (c2 = 'x' ∨ c2 = 'X') then pyHexScan true rest
      else pyHexScan false t
    | _ => pyHexScan false t
  match scanned with
  | some ds => if ds = [] then none else some ds
  | none => none

/-- `"%032x" % value`: the canonical 32-digit lowercase hex form of the
parsed value (drop leading zeros of the digit string, pad back to 32). -/
def canonHex32 (ds : List Char) : List Char :=
  let d := (ds.map Char.toLower).dropWhile (fun c => c = '0')
  List.replicate (32 - d.length) '0' ++ d

/-- Parse a string as `uuid.UUID` does; `some` holds `str(uuid.UUID(s))`,
the canonical lowercase hyphenated form of the parsed value. -/
def pyUUIDCanon (s : String) : Option String :=
  let t := removeSub "uuid:".data (removeSub "urn:".data s.data)
  let t := (stripLlaves t).filter (fun c => c ≠ Char.ofNat 45)
  if t.length = 32 then
    match pyIntHex16 t with
    | some ds => some ⟨conGuiones (canonHex32 ds)⟩
    | none => none
  else none

/-! ## Python `round(x, 4)`

Floats are embedded as exact rationals; `round(x, 4)` is embedded as exact
rounding half-to-even at the fourth decimal place. -/

/-- Round to the nearest integer, ties to the even integer. -/
def roundHalfEven (q : ℚ) : ℤ :=
  if q - ⌊q⌋ < 1 / 2 then ⌊q⌋
  else if 1 / 2 < q - ⌊q⌋ then ⌊q⌋ + 1
  else if ⌊q⌋ % 2 = 0 then ⌊q⌋ else ⌊q⌋ + 1

/-- Python `round(x, 4)`. -/
def round4 (q : ℚ) : ℚ :=
  (roundHalfEven (q * 10000) : ℚ) / 10000

/-! ## Popularity fallback (`RecommenderService.recomendar_populares`) -/

/-- The popularity weight table `pesos` (the `pesos.get(row.tipo, 0.5)`
default can never fire: every enum member has an entry). -/
def pesosPopularidad : InteractionType → ℚ
  | .guardado => 3
  | .asistio => 3
  | .compartido => 2
  | .vista => 1
  | .clic => 1 / 2

/-- Total popularity score of one event: the grouped
`count(*) group by (event_id, tipo)` rows weighted by `pesos` and summed
per event denote exactly the sum of `pesos` over the event's rows. -/
def sumPesos (inters : List Interaction) (eid : String) : ℚ :=
  ((inters.filter (fun i => i.event_id = eid)).map (fun i => pesosPopularidad i.tipo)).sum

/-- The `puntajes` dict: keyed by event id in first-appearance order (the
insertion order of the accumulation loop), valued by the weighted sum. -/
def puntajesPopulares (inters : List Interaction) : List (String × ℚ) :=
  ((inters.map Interaction.event_id).dedup).map (fun eid => (eid, sumPesos inters eid))

/-- `top_ids[: limite * 3]`: ids sorted by score descending (Python
`sorted(..., reverse=True)`, a stable descending sort), truncated. -/
def popularesPool (inters : List Interaction) (limite : Nat) : List String :=
  (((puntajesPopulares inters).mergeSort (fun a b => decide (b.2 ≤ a.2))).map Prod.fst).take (limite * 3)

/-- First selection stage of `recomendar_populares`: future events whose id
is in the pool, ordered by start date ascending, limited to `limite`
(empty when there are no scored interactions at all). -/
def popularesSeleccion (st : Store) (ahora : Int) (limite : Nat) : List Event :=
  if puntajesPopulares st.interactions = [] then []
  else
    (sortPorFecha (st.events.filter
      (fun e => (popularesPool st.interactions limite).contains e.id && esFuturo ahora e))).take limite

/-- Padding stage: `if len(eventos) < limite`, complete with the next
future events not already included, by start date. -/
def popularesConRelleno (st : Store) (ahora : Int) (limite : Nat) : List Event :=
  let eventos := popularesSeleccion st ahora limite
  if eventos.length < limite then
    eventos ++ (sortPorFecha (st.events.filter
      (fun e => esFuturo ahora e && !((eventos.map Event.id).contains e.id)))).take
        (limite - eventos.length)
  else eventos

/-- `RecommenderService.recomendar_populares`. -/
def recomendar_populares (st : Store) (ahora : Int) (limite : Nat) : List RecItem :=
  ((popularesConRelleno st ahora limite).take limite).map
    (fun e => ⟨serializarEvento e, "Evento popular en la comunidad Bahoy"⟩)

/-! ## Scoring (`RecommenderService._puntuar_evento`) -/

/-- Python slicing `s[:n]`. -/
def strTake (n : Nat) (s : String) : String :=
  ⟨s.data.take n⟩

/-- `RecommenderService._puntuar_evento`: relevance score and reason text.
(The source calls `datetime.now` a second time for the proximity bonus;
both calls are embedded as the same instant `ahora`.)  `precio_min_pref`
is accepted and unused, exactly as in the source. -/
def _puntuar_evento (ahora : Int) (e : Event) (categorias_fav barrios_fav : List String)
    (precio_min_pref precio_max : Option ℚ) (tags_interes : List String) : ℚ × String :=
  let _ := precio_min_pref
  let catNombreOrig : String := match e.categoria with | some c => c.nombre | none => ""
  let cat_nombre := catNombreOrig.toLower
  let hitCat := cat_nombre ≠ "" && categorias_fav.contains cat_nombre
  let barrioOrig : String := match e.venue with
    | some v => v.barrio.getD ""
    | none => ""
  let barrio_evento := barrioOrig.toLower
  let hitBarrio := barrio_evento ≠ "" && barrios_fav.contains barrio_evento
  -- 0 = no price bonus, 1 = "gratuito", 2 = "dentro de tu rango de precio"
  let precioCase : Nat :=
    match precio_max with
    | none => 0
    | some pm =>
      if e.es_gratuito then 1
      else match e.precio_min with
        | some p => if p ≤ pm then 2 else 0
        | none => 0
  let event_tags := e.tags.map String.toLower
  let matchesTags := (tags_interes.filter (fun t => event_tags.contains t)).dedup
  let puntaje : ℚ :=
    (if hitCat then 5 else 0) + (if hitBarrio then 3 else 0)
      + (if precioCase ≠ 0 then 2 else 0)
      + (matchesTags.length : ℚ) * (3 / 2)
      + (match e.fecha_inicio with
         | some f =>
           let dias := (f - ahora).fdiv 86400
           if dias ≤ 3 then 2 else if dias ≤ 7 then 1 else 0
         | none => 0)
  let razones : List String :=
    (if hitCat then ["eventos de " ++ catNombreOrig] else [])
      ++ (if hitBarrio then ["en " ++ barrioOrig] else [])
      ++ (if precioCase = 1 then ["gratuito"]
          else if precioCase = 2 then ["dentro de tu rango de precio"] else [])
      ++ (if matchesTags = [] then []
          else ["etiquetado: " ++ String.intercalate ", "
                  (matchesTags.mergeSort (fun a b => decide (a ≤ b)))])
  let razon :=
    if razones = [] then "Próximamente en Buenos Aires"
    else "Porque te gustan: " ++ String.intercalate " · " razones
  (puntaje, razon)

/-! ## Phase 1 (`RecommenderService.recomendar_para_usuario`) -/

/-- `RecommenderService.recomendar_para_usuario`.  A malformed id raises
`ValueError` out of `uuid.UUID` inside `_get_user` (nothing catches it);
an unknown user returns `[]`. -/
def recomendar_para_usuario (st : Store) (ahora : Int) (user_id : String) (limite : Nat) :
    Except PyError (List RecItem) :=
  match pyUUIDCanon user_id with
  | none => .error .valueError
  | some uid =>
    match st.users.find? (fun u => u.id = uid) with
    | none => .ok []
    | some user =>
      let prefs := user.preferencias.getD Prefs.empty
      let categorias_fav := prefs.categorias_favoritas.map String.toLower
      let barrios_fav := prefs.barrios_preferidos.map String.toLower
      -- `rango = prefs.get("rango_precio") or prefs.get("rango_precios") or {}`
      let rango : Rango :=
        match prefs.rango_precio with
        | some r => r
        | none => prefs.rango_precios.getD ⟨none, none⟩
      let precio_max := rango.max
      let precio_min_pref := rango.min
      let tags_interes := prefs.tags_interes.map String.toLower
      if categorias_fav = [] ∧ barrios_fav = [] ∧ tags_interes = [] then
        .ok (recomendar_populares st ahora limite)
      else
        let pasaCat (e : Event) : Bool :=
          categorias_fav.isEmpty
            || (match e.categoria with
                | some c => categorias_fav.contains c.nombre.toLower
                | none => false)
        let pasaPrecio (e : Event) : Bool :=
          match precio_max with
          | none => true
          | some pm =>
            e.es_gratuito
              || (match e.precio_min with
                  | some p => decide (p ≤ pm)
                  | none => false)
        let candidatos := (sortPorFecha (st.events.filter
          (fun e => esFuturo ahora e && pasaCat e && pasaPrecio e))).take (limite * 5)
        let candidatos :=
          if candidatos = [] then
            (sortPorFecha (st.events.filter (esFuturo ahora))).take (limite * 5)
          else candidatos
        if candidatos = [] then .ok (recomendar_populares st ahora limite)
        else
          let scored := candidatos.map (fun e =>
            let pr := _puntuar_evento ahora e categorias_fav barrios_fav
              precio_min_pref precio_max tags_interes
            (pr.1, e, pr.2))
          .ok (_diversificar (scored.mergeSort (fun a b => decide (b.1 ≤ a.1))) 3 limite)

/-! ## Similar items (`RecommenderService.recomendar_similares`) -/

/-- Dot product of two embedding vectors. -/
def dotProd (a b : List ℚ) : ℚ :=
  (a.zipWith (· * ·) b).sum

/-- Squared Euclidean norm of an embedding vector. -/
def normSq (a : List ℚ) : ℚ :=
  dotProd a a

/-- Decide `cosine_distance(a, ref) ≤ cosine_distance(b, ref)`, i.e.
`dot(a,ref)/‖a‖ ≥ dot(b,ref)/‖b‖`, exactly over `ℚ` by sign analysis and
squaring (`‖ref‖ > 0` cancels).  A zero-norm vector (distance undefined,
`NaN` in pgvector) is ordered arbitrarily but fixedly. -/
def cosDistLE (ref a b : List ℚ) : Bool :=
  let da := dotProd a ref
  let db := dotProd b ref
  let na := normSq a
  let nb := normSq b
  if na = 0 || nb = 0 then true
  else if 0 ≤ da then
    if db ≤ 0 then true else decide (db ^ 2 * na ≤ da ^ 2 * nb)
  else
    if 0 ≤ db then false else decide (da ^ 2 * nb ≤ db ^ 2 * na)

/-- `RecommenderService.recomendar_similares`.  A malformed id raises
`ValueError` out of `uuid.UUID` inside `_get_evento`; an unknown
reference event returns `[]`. -/
def recomendar_similares (st : Store) (ahora : Int) (event_id : String) (limite : Nat) :
    Except PyError (List RecItem) :=
  match pyUUIDCanon event_id with
  | none => .error .valueError
  | some eid =>
    match st.events.find? (fun e => e.id = eid) with
    | none => .ok []
    | some ref =>
      let base := st.events.filter (fun e =>
        e.id ≠ ref.id && esFuturo ahora e
          && (match ref.categoria_id with
              | some cid => e.categoria_id = some cid
              | none => true))
      let ordenados :=
        match ref.embedding with
        | some emb => base.mergeSort (fun a b =>
            cosDistLE emb (a.embedding.getD []) (b.embedding.getD []))
        | none => sortPorFecha base
      let cat_nombre := match ref.categoria with
        | some c => c.nombre
        | none => "mismo género"
      let titulo_ref := strTake 40 ref.titulo
      .ok ((ordenados.take limite).map (fun e =>
        ⟨serializarEvento e,
          "Similar a \x27" ++ titulo_ref ++ "\x27 · categoría: " ++ cat_nombre⟩))

/-! ## Metrics (`app/services/metrics.py`) -/

/-- `since = datetime.now(timezone.utc) - timedelta(days=periodo_dias)`. -/
def sinceOf (ahora : Int) (periodo_dias : Nat) : Int :=
  ahora - (periodo_dias : Int) * 86400

/-- Impressions whose `timestamp >= since`. -/
def impresionesEnPeriodo (st : Store) (since : Int) : List Impression :=
  st.impressions.filter (fun im => decide (since ≤ im.timestamp))

/-- `sum(len(eids) for eids in all_event_ids if eids)`: total recommended
event-slots in the window (an empty/falsy list contributes 0 either way). -/
def totalSlots (st : Store) (since : Int) : Nat :=
  (((impresionesEnPeriodo st since).map Impression.event_ids).map List.length).sum

/-- Count of interactions of one type with `timestamp >= since`. -/
def cuentaInteracciones (st : Store) (since : Int) (t : InteractionType) : Nat :=
  (st.interactions.filter (fun i => i.tipo = t && decide (since ≤ i.timestamp))).length

/-- `MetricsService.calcular_ctr`. -/
def calcular_ctr (st : Store) (ahora : Int) (periodo_dias : Nat) : ℚ :=
  let since := sinceOf ahora periodo_dias
  let total := totalSlots st since
  if total = 0 then 0
  else round4 ((cuentaInteracciones st since .clic : ℚ) / (total : ℚ))

/-- `MetricsService.calcular_tasa_guardado`. -/
def calcular_tasa_guardado (st : Store) (ahora : Int) (periodo_dias : Nat) : ℚ :=
  let since := sinceOf ahora periodo_dias
  let total := totalSlots st since
  if total = 0 then 0
  else round4 ((cuentaInteracciones st since .guardado : ℚ) / (total : ℚ))

/-- `all_event_uuids`: the impression ids that parse as UUIDs (a set,
embedded as a deduplicated list). -/
def validUUIDIds (listas : List (List String)) : List String :=
  (listas.flatten.filterMap pyUUIDCanon).dedup

/-- `event_to_category.get(str(eid))` with `None` for a missing key or a
`None` value: the category of the event fetched for the valid ids. -/
def catDeFetched (st : Store) (validIds : List String) (eid : String) : Option String :=
  ((st.events.filter (fun e => validIds.contains e.id)).find? (fun e => e.id = eid)).bind
    Event.categoria_id

/-- One loop iteration of `calcular_diversidad`: the impression's
diversity value, or `none` when the impression is skipped (`continue`). -/
def diversidadImpresion (st : Store) (validIds : List String) (eids : List String) :
    Option ℚ :=
  let categorias := eids.filterMap (catDeFetched st validIds)
  if categorias = [] then none
  else some ((categorias.dedup.length : ℚ) / (eids.length : ℚ))

/-- `MetricsService.calcular_diversidad`. -/
def calcular_diversidad (st : Store) (ahora : Int) (periodo_dias : Nat) : ℚ :=
  let since := sinceOf ahora periodo_dias
  let listas := (impresionesEnPeriodo st since).map Impression.event_ids
  if listas = [] then 0
  else
    if validUUIDIds listas = [] then 0
    else
      let diversidades := listas.filterMap (diversidadImpresion st (validUUIDIds listas))
      if diversidades = [] then 0
      else round4 (diversidades.sum / (diversidades.length : ℚ))

/-! ## Bias analyzer (`app/services/bias_analysis.py`) -/

/-- `_UMBRAL_POPULARIDAD`. -/
def _UMBRAL_POPULARIDAD : Nat := 10

/-- `_ALERTA_POPULARIDAD`. -/
def _ALERTA_POPULARIDAD : ℚ := 80 / 100

/-- In-window interaction count of one event
(`count(*) ... where timestamp >= since group by event_id`, then `.get(eid, 0)`). -/
def interaccionesDeEvento (st : Store) (since : Int) (eid : String) : Nat :=
  (st.interactions.filter (fun i => decide (since ≤ i.timestamp) && i.event_id = eid)).length

/-- The result dict of `BiasAnalyzer.analizar_popularidad` (numeric fields
and the alert flag; the free-text description is not embedded). -/
structure PopularidadResult where
  periodo_dias : Nat
  total_slots : Nat
  eventos_unicos : Nat
  populares : Nat
  porcentaje : ℚ
  umbral_interacciones : Nat
  distribucion_0 : Nat
  distribucion_1_5 : Nat
  distribucion_6_10 : Nat
  distribucion_mas_10 : Nat
  alerta : Bool
deriving DecidableEq, Repr

/-- `BiasAnalyzer.analizar_popularidad`. -/
def analizar_popularidad (st : Store) (ahora : Int) (periodo_dias : Nat) : PopularidadResult :=
  let since := sinceOf ahora periodo_dias
  let slots := ((impresionesEnPeriodo st since).map Impression.event_ids).flatten
  if slots = [] then
    { periodo_dias := periodo_dias, total_slots := 0, eventos_unicos := 0, populares := 0,
      porcentaje := 0, umbral_interacciones := _UMBRAL_POPULARIDAD,
      distribucion_0 := 0, distribucion_1_5 := 0, distribucion_6_10 := 0,
      distribucion_mas_10 := 0, alerta := false }
  else
    let populares := slots.countP
      (fun eid => decide (_UMBRAL_POPULARIDAD < interaccionesDeEvento st since eid))
    let total := slots.length
    let porcentaje := if total ≠ 0 then round4 ((populares : ℚ) / (total : ℚ)) else 0
    let conteos := slots.dedup.map (interaccionesDeEvento st since)
    { periodo_dias := periodo_dias, total_slots := total,
      eventos_unicos := slots.dedup.length, populares := populares,
      porcentaje := porcentaje, umbral_interacciones := _UMBRAL_POPULARIDAD,
      distribucion_0 := conteos.countP (fun c => decide (c = 0)),
      distribucion_1_5 := conteos.countP (fun c => decide (1 ≤ c ∧ c ≤ 5)),
      distribucion_6_10 := conteos.countP (fun c => decide (6 ≤ c ∧ c ≤ 10)),
      distribucion_mas_10 := conteos.countP (fun c => decide (10 < c)),
      alerta := decide (_ALERTA_POPULARIDAD < porcentaje) }

/-- `BiasAnalyzer._clasificar_precio`: price-bucket classification by
minimum price and free flag (`precio_min == 0` is Python value equality,
false for `None`; the `_PRECIO_BUCKETS` loop skips the `"gratuito"` row
and falls through to `"premium"`). -/
def _clasificar_precio (precio_min : Option ℚ) (es_gratuito : Bool) : String :=
  if es_gratuito || precio_min = some 0 then "gratuito"
  else
    match precio_min with
    | none => "sin_informacion"
    | some p =>
      if 1 ≤ p ∧ p ≤ 999 then "economico"
      else if 1000 ≤ p ∧ p ≤ 2999 then "moderado"
      else if 3000 ≤ p then "premium"
      else "premium"

/-! ## Hybrid combiner (spec §4.6) — modelled from the spec

`recomendar_hibrido` (and the Phase-2 code it combines) is exercised by
`tests/test_recommender.py` but its implementation is not under `src/`,
so it is modelled from the spec's words here. -/

/-- Modelled from the spec: the dedup step of `recomendar_hibrido`
(\"removes later duplicates by event id (first occurrence wins)\").
The implementation itself is missing from `src/`. -/
def dedupPorId : List RecItem → List RecItem
  | [] => []
  | r :: rest => r :: dedupPorId (rest.filter (fun x => x.event.id ≠ r.event.id))
termination_by l => l.length
decreasing_by
  simp_wf
  have := List.length_filter_le (fun x => !decide (x.event.id = r.event.id)) rest
  omega

/-- Category key of a combined recommendation item (the serialized dict
carries the category name). -/
def hybridCatKey (r : RecItem) : String :=
  match r.event.categoria with
  | some c => c
  | none => "sin_categoria"

/-- Modelled from the spec: the diversification walk of §4.6 — \"admit an
item if its category has been admitted fewer than the cap; otherwise
defer it to an overflow list appended after all admissible items\".
Returns (admitted, overflow).  The implementation is missing from `src/`. -/
def diversificarSpecAux (cap : Nat) :
    (String → Nat) → List RecItem → List RecItem × List RecItem
  | _, [] => ([], [])
  | contador, r :: rest =>
    if contador (hybridCatKey r) < cap then
      let p := diversificarSpecAux cap (bump contador (hybridCatKey r)) rest
      (r :: p.1, p.2)
    else
      let p := diversificarSpecAux cap contador rest
      (p.1, r :: p.2)

/-- Modelled from the spec: §4.6 diversification — overflow appended after
all admissible items, then truncation to `limite`. -/
def diversificarSpec (l : List RecItem) (cap limite : Nat) : List RecItem :=
  let p := diversificarSpecAux cap (fun _ => 0) l
  (p.1 ++ p.2).take limite

/-- Modelled from the spec: `recomendar_hibrido` — \"concatenates Phase-1
results first (priority) then Phase-2 results, removes later duplicates by
event id (first occurrence wins), then re-applies diversification capping
any single category at 3 entries among the first `limit` results,
truncating to `limit`\".  The implementation is missing from `src/`
(only its tests call it), so the two phase results are taken as inputs. -/
def recomendar_hibrido (fase1 fase2 : List RecItem) (limite : Nat) : List RecItem :=
  diversificarSpec (dedupPorId (fase1 ++ fase2)) 3 limite

/-! ## Claim-side diversity definitions (for comparison with
`calcular_diversidad`) -/

/-- The category of the event with id `eid`, looked up in the whole
catalog (used to restate the diversity metric without the intermediate
fetch step). -/
def categoriaGlobal (st : Store) (eid : String) : Option String :=
  (st.events.find? (fun e => e.id = eid)).bind Event.categoria_id

/-- Per-impression diversity as the claim words it: distinct categories
over the count of events HAVING a category (category-less events excluded
from numerator and denominator). -/
def diversidadImpresionSpec (st : Store) (eids : List String) : Option ℚ :=
  let categorias := eids.filterMap (categoriaGlobal st)
  if categorias = [] then none
  else some ((categorias.dedup.length : ℚ) / (categorias.length : ℚ))

/-- The diversity metric as the spec's words state it (mean over
impressions of `diversidadImpresionSpec`), for comparison with the
source's `calcular_diversidad`. -/
def diversidadSpecMetric (st : Store) (ahora : Int) (periodo_dias : Nat) : ℚ :=
  let listas := (impresionesEnPeriodo st (sinceOf ahora periodo_dias)).map Impression.event_ids
  let vals := listas.filterMap (diversidadImpresionSpec st)
  if vals = [] then 0 else vals.sum / (vals.length : ℚ)

/-- Per-impression diversity as the code computes it: the denominator is
the impression's TOTAL slot count. -/
def diversidadImpresionRestated (st : Store) (eids : List String) : Option ℚ :=
  let categorias := eids.filterMap (categoriaGlobal st)
  if categorias = [] then none
  else some ((categorias.dedup.length : ℚ) / (eids.length : ℚ))

/-- What `calcular_diversidad` actually computes, restated directly:
per impression, distinct categories among its events (category-less
events excluded from the numerator only) divided by the impression's
*total* slot count; impressions with no categorized event are skipped;
the reported value is `round4` of the mean. -/
def diversidadCodeRestated (st : Store) (ahora : Int) (periodo_dias : Nat) : ℚ :=
  let listas := (impresionesEnPeriodo st (sinceOf ahora periodo_dias)).map Impression.event_ids
  let vals := listas.filterMap (diversidadImpresionRestated st)
  if vals = [] then 0 else round4 (vals.sum / (vals.length : ℚ))

/-! ## Concrete rows used by witnesses and counterexamples -/

/-- An event with only the fields a given scenario needs. -/
def mkEvent (id : String) (cat : Option Category) (fecha : Option Int) : Event :=
  { id := id, titulo := "t", descripcion := none, categoria := cat, subcategorias := [],
    fecha_inicio := fecha, fecha_fin := none, venue := none, precio_min := none,
    precio_max := none, es_gratuito := false, imagen_url := none, url_fuente := none,
    tags := [], embedding := none, source_id := none }

/-! ## Lemmas about the diversification loop -/

theorem bump_ne (f : String → Nat) (k s : String) (h : s ≠ k) : bump f k s = f s := by
  simp [bump, h]

theorem countP_diversificarAux (mc lim : Nat) (c : String) :
    ∀ (l : List (ℚ × Event × String)) (ctr : String → Nat) (n : Nat),
      (_diversificarAux mc lim ctr n l).countP (fun p => decide (catKey p.1 = c))
        ≤ mc - ctr c := by
  intro l
  induction l with
  | nil => intro ctr n; simp [_diversificarAux]
  | cons hd tl ih =>
    intro ctr n
    obtain ⟨q, e, r⟩ := hd
    rw [_diversificarAux]
    split
    · simp
    · rename_i hn
      split
      · rename_i hlt
        rw [List.countP_cons]
        simp only [decide_eq_true_eq]
        by_cases hc : catKey e = c
        · rw [if_pos hc]
          have h2 := ih (bump ctr (catKey e)) (n + 1)
          have hb : bump ctr (catKey e) c = ctr c + 1 := by
            rw [hc]; simp [bump, hc]
          rw [hb] at h2
          rw [hc] at hlt
          omega
        · rw [if_neg hc]
          have h2 := ih (bump ctr (catKey e)) (n + 1)
          rw [bump_ne ctr (catKey e) c (fun h => hc h.symm)] at h2
          omega
      · exact ih ctr n

theorem length_diversificarAux (mc lim : Nat) :
    ∀ (l : List (ℚ × Event × String)) (ctr : String → Nat) (n : Nat),
      (_diversificarAux mc lim ctr n l).length ≤ lim - n := by
  intro l
  induction l with
  | nil => intro ctr n; simp [_diversificarAux]
  | cons hd tl ih =>
    intro ctr n
    obtain ⟨q, e, r⟩ := hd
    rw [_diversificarAux]
    split
    · simp
    · rename_i hn
      split
      · have h2 := ih (bump ctr (catKey e)) (n + 1)
        simp only [List.length_cons]
        omega
      · exact ih ctr n

theorem diversificarAux_sublist (mc lim : Nat) :
    ∀ (l : List (ℚ × Event × String)) (ctr : String → Nat) (n : Nat),
      (_diversificarAux mc lim ctr n l).Sublist (l.map (fun t => (t.2.1, t.2.2))) := by
  intro l
  induction l with
  | nil => intro ctr n; simp [_diversificarAux]
  | cons hd tl ih =>
    intro ctr n
    obtain ⟨q, e, r⟩ := hd
    rw [_diversificarAux]
    split
    · exact List.nil_sublist _
    · split
      · exact List.Sublist.cons₂ _ (ih _ _)
      · exact List.Sublist.cons _ (ih _ _)

/-- C4: for every scored candidate list and every limit, `_diversificar`
with cap 3 outputs at most `limite` entries, and among the admitted
events no category key occurs more than 3 times. -/
theorem diversificacion_cap_3 (scored : List (ℚ × Event × String)) (limite : Nat) :
    (_diversificar scored 3 limite).length ≤ limite ∧
      ∀ c : String,
        (_diversificarEvents scored 3 limite).countP (fun p => decide (catKey p.1 = c)) ≤ 3 := by
  constructor
  · have h := length_diversificarAux 3 limite scored (fun _ => 0) 0
    simpa [_diversificar, _diversificarEvents] using h
  · intro c
    have h := countP_diversificarAux 3 limite c scored (fun _ => 0) 0
    simpa [_diversificarEvents] using h

/-- C1 (amended): the diversified output is an order-preserving
subsequence of the (serialization-ready) input, truncated to `limite`;
items over the category cap are simply omitted. -/
theorem diversificacion_subsecuencia (scored : List (ℚ × Event × String)) (limite : Nat) :
    (_diversificarEvents scored 3 limite).Sublist (scored.map (fun t => (t.2.1, t.2.2))) ∧
      (_diversificar scored 3 limite).length ≤ limite := by
  constructor
  · exact diversificarAux_sublist 3 limite scored (fun _ => 0) 0
  · have h := length_diversificarAux 3 limite scored (fun _ => 0) 0
    simpa [_diversificar, _diversificarEvents] using h

/-- The category shared by the four events of the C1 counterexample. -/
def catC1 : Category := ⟨"c1", "Teatro"⟩

/-- Four same-category scored events; the cap is 3, the limit is 10. -/
def scoredC1 : List (ℚ × Event × String) :=
  [(4, mkEvent "e1" (some catC1) none, "r"),
   (3, mkEvent "e2" (some catC1) none, "r"),
   (2, mkEvent "e3" (some catC1) none, "r"),
   (1, mkEvent "e4" (some catC1) none, "r")]

/-- C1 counterexample: with 4 events of one category and limit 10 (no
truncation), the fourth event is dropped from the output entirely — it is
not appended after the admissible items as the claim states. -/
theorem diversificacion_descarta_excedente :
    ((_diversificar scoredC1 3 10).map (fun r => r.event.id)) = ["e1", "e2", "e3"] ∧
      scoredC1.length = 4 ∧ scoredC1.length ≤ 10 ∧
      ¬ "e4" ∈ ((_diversificar scoredC1 3 10).map (fun r => r.event.id)) := by
  decide

/-! ## Price buckets (C9) -/

/-- C9 (amended): `_clasificar_precio` assigns every event to exactly one
of FIVE buckets — the four of the claim plus `"sin_informacion"` for a
non-free event with no minimum price — and `"premium"` is the fallback
for any known price outside the other ranges (hence also non-integer
prices below 1), not only prices ≥ 3000. -/
theorem clasificar_precio_cinco_buckets (p? : Option ℚ) (g : Bool) :
    _clasificar_precio p? g ∈
        ["gratuito", "sin_informacion", "economico", "moderado", "premium"] ∧
      (_clasificar_precio p? g = "gratuito" ↔ (g = true ∨ p? = some 0)) ∧
      (_clasificar_precio p? g = "sin_informacion" ↔ (g = false ∧ p? = none)) ∧
      (_clasificar_precio p? g = "economico" ↔
        (g = false ∧ ∃ p, p? = some p ∧ 1 ≤ p ∧ p ≤ 999)) ∧
      (_clasificar_precio p? g = "moderado" ↔
        (g = false ∧ ∃ p, p? = some p ∧ 1000 ≤ p ∧ p ≤ 2999)) ∧
      (_clasificar_precio p? g = "premium" ↔
        (g = false ∧ ∃ p, p? = some p ∧ p ≠ 0 ∧
          ¬(1 ≤ p ∧ p ≤ 999) ∧ ¬(1000 ≤ p ∧ p ≤ 2999))) := by
  rcases p? with _ | p
  · cases g <;> simp [_clasificar_precio]
  · cases g
    · by_cases h0 : p = 0
      · subst h0
        have hval : _clasificar_precio (some 0) false = "gratuito" := by
          simp [_clasificar_precio]
        refine ⟨?_, ?_, ?_, ?_, ?_, ?_⟩ <;> rw [hval] <;> simp <;> norm_num
      · by_cases h1 : 1 ≤ p ∧ p ≤ 999
        · have hval : _clasificar_precio (some p) false = "economico" := by
            simp [_clasificar_precio, h0, h1]
          refine ⟨?_, ?_, ?_, ?_, ?_, ?_⟩ <;> rw [hval] <;> simp [h0, h1] <;>
            first
            | exact h1
            | (intros; linarith [h1.1, h1.2])
        · by_cases h2 : 1000 ≤ p ∧ p ≤ 2999
          · have hval : _clasificar_precio (some p) false = "moderado" := by
              simp [_clasificar_precio, h0, h1, h2]
            refine ⟨?_, ?_, ?_, ?_, ?_, ?_⟩ <;> rw [hval] <;> simp [h0, h1, h2]
          · have hval : _clasificar_precio (some p) false = "premium" := by
              simp [_clasificar_precio, h0, h1, h2]
            refine ⟨?_, ?_, ?_, ?_, ?_, ?_⟩ <;> rw [hval] <;> simp [h0, h1, h2] <;>
              (try (push_neg at h1 h2; exact ⟨h1, h2⟩))
    · refine ⟨by simp [_clasificar_precio], ?_, ?_, ?_, ?_, ?_⟩ <;>
        simp [_clasificar_precio]

/-- C9 counterexample: a non-free event with no minimum price is assigned
the bucket `"sin_informacion"`, which is none of the four buckets the
claim allows. -/
theorem clasificar_precio_quinto_bucket :
    _clasificar_precio none false = "sin_informacion" ∧
      ¬ ("sin_informacion" ∈ ["gratuito", "economico", "moderado", "premium"]) := by
  decide

/-! ## Bounds on `round4` -/

theorem floor_le_roundHalfEven (q : ℚ) : ⌊q⌋ ≤ roundHalfEven q := by
  unfold roundHalfEven
  split_ifs <;> omega

theorem roundHalfEven_nonneg (q : ℚ) (h : 0 ≤ q) : 0 ≤ roundHalfEven q := by
  have h1 := floor_le_roundHalfEven q
  have h2 : 0 ≤ ⌊q⌋ := Int.floor_nonneg.mpr h
  omega

theorem roundHalfEven_le (q : ℚ) (N : ℤ) (h : q ≤ N) : roundHalfEven q ≤ N := by
  have hfl : ⌊q⌋ ≤ N := by
    have := Int.floor_le_floor h
    rwa [Int.floor_intCast] at this
  unfold roundHalfEven
  split_ifs with hr1 hr2 hev
  · exact hfl
  · have hq : q < (N : ℚ) := by
      rcases lt_or_eq_of_le h with h' | h'
      · exact h'
      · exfalso
        rw [h'] at hr2
        simp [Int.floor_intCast] at hr2
        linarith
    have := Int.floor_lt.mpr hq
    omega
  · exact hfl
  · have hq : q < (N : ℚ) := by
      rcases lt_or_eq_of_le h with h' | h'
      · exact h'
      · exfalso
        rw [h'] at hr1
        simp [Int.floor_intCast] at hr1
    have := Int.floor_lt.mpr hq
    omega

theorem round4_nonneg (q : ℚ) (h : 0 ≤ q) : 0 ≤ round4 q := by
  unfold round4
  have h1 : 0 ≤ roundHalfEven (q * 10000) := by
    apply roundHalfEven_nonneg
    positivity
  have h2 : (0 : ℚ) ≤ (roundHalfEven (q * 10000) : ℚ) := by exact_mod_cast h1
  apply div_nonneg h2
  norm_num

theorem round4_le_one (q : ℚ) (h : q ≤ 1) : round4 q ≤ 1 := by
  unfold round4
  have h1 : roundHalfEven (q * 10000) ≤ (10000 : ℤ) := by
    apply roundHalfEven_le
    push_cast
    linarith
  rw [div_le_one (by norm_num)]
  exact_mod_cast h1

/-! ## C2: CTR and save-rate range -/

theorem calcular_ctr_eq (st : Store) (ahora : Int) (periodo_dias : Nat) :
    calcular_ctr st ahora periodo_dias =
      if totalSlots st (sinceOf ahora periodo_dias) = 0 then 0
      else round4 ((cuentaInteracciones st (sinceOf ahora periodo_dias) .clic : ℚ) /
        (totalSlots st (sinceOf ahora periodo_dias) : ℚ)) := rfl

theorem calcular_tasa_guardado_eq (st : Store) (ahora : Int) (periodo_dias : Nat) :
    calcular_tasa_guardado st ahora periodo_dias =
      if totalSlots st (sinceOf ahora periodo_dias) = 0 then 0
      else round4 ((cuentaInteracciones st (sinceOf ahora periodo_dias) .guardado : ℚ) /
        (totalSlots st (sinceOf ahora periodo_dias) : ℚ)) := rfl

/-- C2 (amended): CTR and save rate are nonnegative, both are exactly 0
whenever no impression slots exist in the window, and each is ≤ 1 whenever
the corresponding interaction count does not exceed the slot count — but
the upper bound 1 does NOT hold unconditionally, because clicks and saves
are counted over the whole window regardless of what was impressed (see
the counterexample). -/
theorem ctr_y_tasa_guardado_rango (st : Store) (ahora : Int) (periodo_dias : Nat) :
    0 ≤ calcular_ctr st ahora periodo_dias ∧
      0 ≤ calcular_tasa_guardado st ahora periodo_dias ∧
      (totalSlots st (sinceOf ahora periodo_dias) = 0 →
        calcular_ctr st ahora periodo_dias = 0 ∧
          calcular_tasa_guardado st ahora periodo_dias = 0) ∧
      (cuentaInteracciones st (sinceOf ahora periodo_dias) .clic ≤
          totalSlots st (sinceOf ahora periodo_dias) →
        calcular_ctr st ahora periodo_dias ≤ 1) ∧
      (cuentaInteracciones st (sinceOf ahora periodo_dias) .guardado ≤
          totalSlots st (sinceOf ahora periodo_dias) →
        calcular_tasa_guardado st ahora periodo_dias ≤ 1) := by
  refine ⟨?_, ?_, ?_, ?_, ?_⟩
  · rw [calcular_ctr_eq]
    split_ifs
    · norm_num
    · apply round4_nonneg
      apply div_nonneg <;> simp
  · rw [calcular_tasa_guardado_eq]
    split_ifs
    · norm_num
    · apply round4_nonneg
      apply div_nonneg <;> simp
  · intro h
    rw [calcular_ctr_eq, calcular_tasa_guardado_eq]
    simp [h]
  · intro hle
    rw [calcular_ctr_eq]
    split_ifs with h
    · norm_num
    · apply round4_le_one
      rw [div_le_one]
      · exact_mod_cast hle
      · exact_mod_cast Nat.pos_of_ne_zero h
  · intro hle
    rw [calcular_tasa_guardado_eq]
    split_ifs with h
    · norm_num
    · apply round4_le_one
      rw [div_le_one]
      · exact_mod_cast hle
      · exact_mod_cast Nat.pos_of_ne_zero h

/-- The empty store. -/
def stVacio : Store := ⟨[], [], [], []⟩

/-- C2 witness: on the empty store all hypotheses hold concretely. -/
theorem ctr_y_tasa_guardado_rango_witness :
    0 ≤ calcular_ctr stVacio 0 7 ∧
      (calcular_ctr stVacio 0 7 = 0 ∧ calcular_tasa_guardado stVacio 0 7 = 0) ∧
      calcular_ctr stVacio 0 7 ≤ 1 ∧ calcular_tasa_guardado stVacio 0 7 ≤ 1 := by
  obtain ⟨h1, h2, h3, h4, h5⟩ := ctr_y_tasa_guardado_rango stVacio 0 7
  exact ⟨h1, h3 (by decide), h4 (by decide), h5 (by decide)⟩

/-- One impressed slot, two window clicks and two window saves. -/
def stC2 : Store :=
  { events := [], users := [],
    interactions := [⟨"u", "e", .clic, 0⟩, ⟨"u", "e", .clic, 0⟩,
                     ⟨"u", "e", .guardado, 0⟩, ⟨"u", "e", .guardado, 0⟩],
    impressions := [⟨"u", ["e"], "populares", 0⟩] }

/-- C2 counterexample: with 1 impressed slot and 2 clicks / 2 saves in the
window, CTR and save rate both evaluate to 2.0 > 1.0, refuting the claimed
interval [0.0, 1.0]. -/
theorem ctr_supera_uno :
    calcular_ctr stC2 0 7 = 2 ∧ calcular_tasa_guardado stC2 0 7 = 2 ∧ ¬ ((2 : ℚ) ≤ 1) :=
  of_decide_eq_true (by with_unfolding_all rfl)

/-! ## C8: popularity-bias alert -/

/-- Ten impressed slots, nine of them from events with 11 > 10 window
interactions: the claim's first example. -/
def stC8a : Store :=
  { events := [], users := [],
    interactions := (["e1", "e2", "e3", "e4", "e5", "e6", "e7", "e8", "e9"].map
      (fun eid => List.replicate 11 (⟨"u", eid, .vista, 0⟩ : Interaction))).flatten,
    impressions :=
      [⟨"u", ["e1", "e2", "e3", "e4", "e5", "e6", "e7", "e8", "e9", "e10"], "populares", 0⟩] }

/-- Ten impressed slots, seven popular: the claim's second example. -/
def stC8b : Store :=
  { events := [], users := [],
    interactions := (["e1", "e2", "e3", "e4", "e5", "e6", "e7"].map
      (fun eid => List.replicate 11 (⟨"u", eid, .vista, 0⟩ : Interaction))).flatten,
    impressions :=
      [⟨"u", ["e1", "e2", "e3", "e4", "e5", "e6", "e7", "e8", "e9", "e10"], "populares", 0⟩] }

/-- C8 (amended): the alert flag equals the comparison of the ROUNDED
popular-slot fraction (`round(populares/total, 4)`, the reported
`porcentaje_populares`) against 0.80 — not of the exact fraction; the
claim's two examples do hold (9 of 10 ⇒ 0.90 ⇒ alert, 7 of 10 ⇒ 0.70 ⇒
no alert). -/
theorem popularidad_alerta_iff :
    (∀ (st : Store) (ahora : Int) (periodo_dias : Nat),
      (analizar_popularidad st ahora periodo_dias).alerta =
        decide (_ALERTA_POPULARIDAD <
          round4 (((analizar_popularidad st ahora periodo_dias).populares : ℚ) /
            ((analizar_popularidad st ahora periodo_dias).total_slots : ℚ)))) ∧
      ((analizar_popularidad stC8a 0 30).porcentaje = 9 / 10 ∧
        (analizar_popularidad stC8a 0 30).alerta = true) ∧
      ((analizar_popularidad stC8b 0 30).porcentaje = 7 / 10 ∧
        (analizar_popularidad stC8b 0 30).alerta = false) := by
  refine ⟨?_, of_decide_eq_true (by with_unfolding_all rfl),
    of_decide_eq_true (by with_unfolding_all rfl)⟩
  intro st ahora periodo_dias
  by_cases hsl : ((impresionesEnPeriodo st (sinceOf ahora periodo_dias)).map
      Impression.event_ids).flatten = []
  · unfold analizar_popularidad
    dsimp only
    rw [if_pos hsl]
    symm
    rw [decide_eq_false_iff_not]
    norm_num [round4, roundHalfEven, _ALERTA_POPULARIDAD]
  · have hlen : (((impresionesEnPeriodo st (sinceOf ahora periodo_dias)).map
        Impression.event_ids).flatten).length ≠ 0 :=
      fun h => hsl (List.length_eq_zero.mp h)
    unfold analizar_popularidad
    dsimp only
    rw [if_neg hsl]
    dsimp only
    rw [if_pos hlen]

/-- 3201 popular slots out of 4001: the exact fraction 3201/4001 exceeds
0.80, but `round(·, 4)` reports it as 0.8000. -/
def stC8cx : Store :=
  { events := [], users := [],
    interactions := List.replicate 11 ⟨"u", "a", .vista, 0⟩,
    impressions := [⟨"u", List.replicate 3201 "a" ++ List.replicate 800 "b", "populares", 0⟩] }

set_option maxRecDepth 4000

theorem round4_3201_4001 : round4 ((3201 : ℚ) / 4001) = 4 / 5 := by
  have hfl : ⌊(3201 : ℚ) / 4001 * 10000⌋ = 8000 := by
    norm_num [Int.floor_eq_iff]
  rw [round4, roundHalfEven, hfl]
  norm_num

theorem stC8cx_slots :
    ((impresionesEnPeriodo stC8cx (sinceOf 0 30)).map Impression.event_ids).flatten =
      List.replicate 3201 "a" ++ List.replicate 800 "b" := by
  show (((stC8cx.impressions.filter _).map Impression.event_ids).flatten) = _
  norm_num [stC8cx, List.filter, sinceOf]

theorem stC8cx_slots_ne_nil :
    (List.replicate 3201 "a" ++ List.replicate 800 "b" : List String) ≠ [] := by
  intro h
  have h2 := congrArg List.length h
  rw [List.length_append, List.length_replicate, List.length_replicate] at h2
  exact absurd h2 (by norm_num)

theorem stC8cx_popular_a :
    (decide (_UMBRAL_POPULARIDAD < interaccionesDeEvento stC8cx (sinceOf 0 30) "a")) = true := by
  with_unfolding_all rfl

theorem stC8cx_popular_b :
    (decide (_UMBRAL_POPULARIDAD < interaccionesDeEvento stC8cx (sinceOf 0 30) "b")) = false := by
  with_unfolding_all rfl

/-- C8 counterexample: a store where the popular-slot fraction is
3201/4001 > 0.80 yet the alert is false, because the code compares the
fraction rounded to 4 decimals (0.8000) against 0.80. -/
theorem popularidad_alerta_falso_negativo :
    (analizar_popularidad stC8cx 0 30).alerta = false ∧
      _ALERTA_POPULARIDAD <
        ((analizar_popularidad stC8cx 0 30).populares : ℚ) /
          ((analizar_popularidad stC8cx 0 30).total_slots : ℚ) := by
  have hp : (analizar_popularidad stC8cx 0 30).populares = 3201 := by
    simp only [analizar_popularidad, stC8cx_slots, if_neg stC8cx_slots_ne_nil,
      List.countP_append, List.countP_replicate, stC8cx_popular_a, stC8cx_popular_b,
      eq_self_iff_true, if_true, Bool.false_eq_true, if_false, Nat.add_zero]
  have ht : (analizar_popularidad stC8cx 0 30).total_slots = 4001 := by
    simp only [analizar_popularidad, stC8cx_slots, if_neg stC8cx_slots_ne_nil,
      List.length_append, List.length_replicate]
  have ha : (analizar_popularidad stC8cx 0 30).alerta = false := by
    simp only [analizar_popularidad, stC8cx_slots, if_neg stC8cx_slots_ne_nil,
      List.countP_append, List.countP_replicate, stC8cx_popular_a, stC8cx_popular_b,
      eq_self_iff_true, if_true, Bool.false_eq_true, if_false, Nat.add_zero,
      List.length_append, List.length_replicate]
    rw [if_pos (by norm_num)]
    rw [decide_eq_false_iff_not]
    have hc : ((3201 : ℕ) : ℚ) / (((3201 : ℕ) + (800 : ℕ) : ℕ) : ℚ) = (3201 : ℚ) / 4001 := by
      norm_num
    rw [hc, round4_3201_4001]
    norm_num [_ALERTA_POPULARIDAD]
  refine ⟨ha, ?_⟩
  rw [hp, ht]
  norm_num [_ALERTA_POPULARIDAD]

/-! ## C3: diversity metric -/

theorem find?_congr_mem {α : Type} (l : List α) (p q : α → Bool)
    (h : ∀ a ∈ l, p a = q a) : l.find? p = l.find? q := by
  induction l with
  | nil => rfl
  | cons x xs ih =>
    have hx := h x (List.mem_cons_self x xs)
    by_cases hq : q x = true
    · rw [List.find?_cons_of_pos _ (hx.trans hq), List.find?_cons_of_pos _ hq]
    · have hp : ¬ p x = true := by rw [hx]; exact hq
      rw [List.find?_cons_of_neg _ hp, List.find?_cons_of_neg _ hq]
      exact ih (fun a ha => h a (List.mem_cons_of_mem _ ha))

theorem contains_eq_true_iff_mem (l : List String) (a : String) :
    l.contains a = true ↔ a ∈ l := by
  simp [List.contains]

/-- Looking an id up in the rows fetched for the valid impression ids
agrees with looking it up in the whole catalog, for ids that occur in the
window's impressions, provided stored ids are canonical UUID strings. -/
theorem catDeFetched_eq_global (st : Store) (validIds : List String) (eid : String)
    (hcanon : ∀ e ∈ st.events, pyUUIDCanon e.id = some e.id)
    (hv : pyUUIDCanon eid = some eid → eid ∈ validIds) :
    catDeFetched st validIds eid = categoriaGlobal st eid := by
  unfold catDeFetched categoriaGlobal
  have hfind : (st.events.filter (fun e => validIds.contains e.id)).find?
      (fun e => e.id = eid) = st.events.find? (fun e => e.id = eid) := by
    rw [List.find?_filter]
    apply find?_congr_mem
    intro e he
    by_cases hid : e.id = eid
    · have hmemv : eid ∈ validIds := by
        apply hv
        rw [← hid]
        exact hcanon e he
      simp [hid, contains_eq_true_iff_mem, hmemv]
    · simp [hid]
  rw [hfind]

/-- C3 (amended): the reported diversity is `round4` of the mean, over the
window's impressions that contain at least one categorized event, of
(distinct categories among the impression's events — category-less events
excluded from the NUMERATOR only) divided by the impression's TOTAL slot
count, category-less slots included in the denominator.  (Hypothesis: the
stored event ids are canonical UUID strings, as the database guarantees.) -/
theorem calcular_diversidad_eq_restated (st : Store) (ahora : Int) (periodo_dias : Nat)
    (hcanon : ∀ e ∈ st.events, pyUUIDCanon e.id = some e.id) :
    calcular_diversidad st ahora periodo_dias = diversidadCodeRestated st ahora periodo_dias := by
  unfold calcular_diversidad diversidadCodeRestated
  dsimp only
  by_cases hl : (impresionesEnPeriodo st (sinceOf ahora periodo_dias)).map
      Impression.event_ids = []
  · rw [hl]
    simp [validUUIDIds]
  · rw [if_neg hl]
    have hsame : ∀ eids ∈ (impresionesEnPeriodo st (sinceOf ahora periodo_dias)).map
        Impression.event_ids,
        diversidadImpresion st (validUUIDIds ((impresionesEnPeriodo st
          (sinceOf ahora periodo_dias)).map Impression.event_ids)) eids =
          diversidadImpresionRestated st eids := by
      intro eids hm
      unfold diversidadImpresion diversidadImpresionRestated
      have hcats : eids.filterMap (catDeFetched st (validUUIDIds
          ((impresionesEnPeriodo st (sinceOf ahora periodo_dias)).map
            Impression.event_ids))) = eids.filterMap (categoriaGlobal st) := by
        apply List.filterMap_congr
        intro eid hin
        apply catDeFetched_eq_global st _ eid hcanon
        intro hc
        rw [validUUIDIds, List.mem_dedup]
        exact List.mem_filterMap.mpr ⟨eid, List.mem_flatten.mpr ⟨eids, hm, hin⟩, hc⟩
      rw [hcats]
    have hmapeq : ((impresionesEnPeriodo st (sinceOf ahora periodo_dias)).map
        Impression.event_ids).filterMap (diversidadImpresion st (validUUIDIds
          ((impresionesEnPeriodo st (sinceOf ahora periodo_dias)).map
            Impression.event_ids))) =
        ((impresionesEnPeriodo st (sinceOf ahora periodo_dias)).map
          Impression.event_ids).filterMap (diversidadImpresionRestated st) :=
      List.filterMap_congr hsame
    by_cases hvnil : validUUIDIds ((impresionesEnPeriodo st
        (sinceOf ahora periodo_dias)).map Impression.event_ids) = []
    · rw [if_pos hvnil]
      -- with no parseable impression id, no global lookup can succeed either
      have hvals : ((impresionesEnPeriodo st (sinceOf ahora periodo_dias)).map
          Impression.event_ids).filterMap (diversidadImpresionRestated st) = [] := by
        rw [List.filterMap_eq_nil]
        intro eids hm
        have hnone : eids.filterMap (categoriaGlobal st) = [] := by
          rw [List.filterMap_eq_nil]
          intro eid hin
          unfold categoriaGlobal
          cases hfind : st.events.find? (fun e => e.id = eid) with
          | none => rfl
          | some e =>
            exfalso
            have hmem := List.mem_of_find?_eq_some hfind
            have hpred := List.find?_some hfind
            have hid : e.id = eid := by simpa using hpred
            have hcan : pyUUIDCanon eid = some eid := by
              rw [← hid]; exact hcanon e hmem
            have hmemv : eid ∈ validUUIDIds ((impresionesEnPeriodo st
                (sinceOf ahora periodo_dias)).map Impression.event_ids) := by
              rw [validUUIDIds, List.mem_dedup]
              exact List.mem_filterMap.mpr ⟨eid, List.mem_flatten.mpr ⟨eids, hm, hin⟩, hcan⟩
            rw [hvnil] at hmemv
            exact absurd hmemv (List.not_mem_nil eid)
        unfold diversidadImpresionRestated
        simp only [hnone]
        rfl
      rw [hvals]
      simp
    · rw [if_neg hvnil, hmapeq]

/-- Category and two events for the C3 counterexample: one categorized,
one category-less, shown together in one impression. -/
def idA : String := "00000000-0000-4000-8000-00000000000a"

/-- Second event id of the C3 counterexample. -/
def idB : String := "00000000-0000-4000-8000-00000000000b"

/-- Store for the C3 counterexample. -/
def stC3 : Store :=
  { events := [mkEvent idA (some ⟨"c1", "Teatro"⟩) none, mkEvent idB none none],
    users := [], interactions := [],
    impressions := [⟨"u", [idA, idB], "hibrido", 0⟩] }

/-- C3 counterexample: the impression shows 1 categorized and 1
category-less event.  The claim's formula (category-less events excluded
from the denominator) gives 1/1 = 1, but the code divides by the total
slot count and reports 1/2. -/
theorem diversidad_divide_por_slots_totales :
    calcular_diversidad stC3 0 7 = 1 / 2 ∧ diversidadSpecMetric stC3 0 7 = 1 ∧
      ((1 : ℚ) / 2) ≠ 1 :=
  of_decide_eq_true (by with_unfolding_all rfl)

/-- C3 witness: the amended equation evaluated on the concrete store. -/
theorem calcular_diversidad_eq_restated_witness :
    calcular_diversidad stC3 0 7 = diversidadCodeRestated stC3 0 7 :=
  calcular_diversidad_eq_restated stC3 0 7
    (of_decide_eq_true (by with_unfolding_all rfl))

/-! ## C5: hybrid dedup invariant (spec-modelled) -/

theorem find?_filter_of_imp {α : Type} (l : List α) (p q : α → Bool)
    (h : ∀ a ∈ l, p a = true → q a = true) :
    (l.filter q).find? p = l.find? p := by
  rw [List.find?_filter]
  apply find?_congr_mem
  intro a ha
  by_cases hp : p a = true
  · simp [hp, h a ha hp]
  · rw [Bool.not_eq_true] at hp
    simp [hp]

theorem dedupPorId_subset : ∀ (l : List RecItem), ∀ r ∈ dedupPorId l, r ∈ l := by
  intro l
  induction l using dedupPorId.induct with
  | case1 => simp [dedupPorId]
  | case2 hd rest ih =>
    intro x hx
    rw [dedupPorId] at hx
    rcases List.mem_cons.mp hx with h | h
    · exact h ▸ List.mem_cons_self hd rest
    · exact List.mem_cons_of_mem hd (List.mem_of_mem_filter (ih x h))

theorem dedupPorId_find? : ∀ (l : List RecItem), ∀ r ∈ dedupPorId l,
    l.find? (fun x => x.event.id = r.event.id) = some r := by
  intro l
  induction l using dedupPorId.induct with
  | case1 => simp [dedupPorId]
  | case2 hd rest ih =>
    intro r hr
    rw [dedupPorId] at hr
    rcases List.mem_cons.mp hr with h | h
    · subst h
      exact List.find?_cons_of_pos _ (by simp)
    · have hmemf := dedupPorId_subset _ r h
      have hne : ¬ (r.event.id = hd.event.id) := by
        have := List.of_mem_filter hmemf
        simpa using this
      rw [List.find?_cons_of_neg _ (by simpa using fun hh => hne hh.symm)]
      have hfind := ih r h
      rw [find?_filter_of_imp] at hfind
      · exact hfind
      · intro a _ hpa
        have ha : a.event.id = r.event.id := by simpa using hpa
        simp [ha, hne]

theorem dedupPorId_nodup : ∀ (l : List RecItem),
    ((dedupPorId l).map (fun r => r.event.id)).Nodup := by
  intro l
  induction l using dedupPorId.induct with
  | case1 => simp [dedupPorId]
  | case2 hd rest ih =>
    rw [dedupPorId]
    rw [List.map_cons, List.nodup_cons]
    refine ⟨?_, ih⟩
    intro hmem
    rcases List.mem_map.mp hmem with ⟨r, hr, hid⟩
    have hmemf := dedupPorId_subset _ r hr
    have := List.of_mem_filter hmemf
    simp [hid] at this

theorem diversificarSpecAux_perm (cap : Nat) :
    ∀ (l : List RecItem) (ctr : String → Nat),
      ((diversificarSpecAux cap ctr l).1 ++ (diversificarSpecAux cap ctr l).2).Perm l := by
  intro l
  induction l with
  | nil => intro ctr; simp [diversificarSpecAux]
  | cons hd tl ih =>
    intro ctr
    rw [diversificarSpecAux]
    by_cases h : ctr (hybridCatKey hd) < cap
    · rw [if_pos h]
      dsimp only
      exact (ih _).cons hd
    · rw [if_neg h]
      dsimp only
      exact List.Perm.trans List.perm_middle ((ih _).cons hd)

/-- C5 (spec-modelled): the hybrid combiner's output never contains the
same event id twice, and every output item is exactly the FIRST item with
its event id in the Phase-1-then-Phase-2 concatenation (first occurrence
wins, Phase-1 priority). -/
theorem recomendar_hibrido_sin_duplicados (fase1 fase2 : List RecItem) (limite : Nat) :
    ((recomendar_hibrido fase1 fase2 limite).map (fun r => r.event.id)).Nodup ∧
      ∀ r ∈ recomendar_hibrido fase1 fase2 limite,
        (fase1 ++ fase2).find? (fun x => x.event.id = r.event.id) = some r := by
  have hre : recomendar_hibrido fase1 fase2 limite =
      ((diversificarSpecAux 3 (fun _ => 0) (dedupPorId (fase1 ++ fase2))).1 ++
        (diversificarSpecAux 3 (fun _ => 0) (dedupPorId (fase1 ++ fase2))).2).take limite := rfl
  have hperm := diversificarSpecAux_perm 3 (dedupPorId (fase1 ++ fase2)) (fun _ => 0)
  constructor
  · rw [hre]
    have hnd : (((diversificarSpecAux 3 (fun _ => 0) (dedupPorId (fase1 ++ fase2))).1 ++
        (diversificarSpecAux 3 (fun _ => 0) (dedupPorId (fase1 ++ fase2))).2).map
          (fun r => r.event.id)).Nodup :=
      ((hperm.map (fun r => r.event.id)).nodup_iff).mpr (dedupPorId_nodup (fase1 ++ fase2))
    exact hnd.sublist ((List.take_sublist _ _).map _)
  · intro r hr
    rw [hre] at hr
    have h1 := (List.take_sublist _ _).subset hr
    have h2 : r ∈ dedupPorId (fase1 ++ fase2) := hperm.subset h1
    exact dedupPorId_find? _ r h2

/-- Recommendation-item constructor for concrete hybrid scenarios. -/
def mkRec (id : String) (cat : Option String) (razon : String) : RecItem :=
  ⟨serializarEvento (mkEvent id (cat.map (fun c => ⟨c, c⟩)) none), razon⟩

/-- Phase-1 output of the C5 witness scenario. -/
def faseW1 : List RecItem :=
  [mkRec "e1" (some "Teatro") "a", mkRec "e2" (some "Musica") "b"]

/-- Phase-2 output of the C5 witness scenario; `e1` is a duplicate. -/
def faseW2 : List RecItem :=
  [mkRec "e1" (some "Teatro") "c", mkRec "e3" none "d"]

/-- C5 witness: concrete phases with a shared event id. -/
theorem recomendar_hibrido_sin_duplicados_witness :
    ((recomendar_hibrido faseW1 faseW2 10).map (fun r => r.event.id)).Nodup ∧
      (faseW1 ++ faseW2).find?
        (fun x => x.event.id = (mkRec "e1" (some "Teatro") "a").event.id) =
        some (mkRec "e1" (some "Teatro") "a") :=
  ⟨(recomendar_hibrido_sin_duplicados faseW1 faseW2 10).1,
   (recomendar_hibrido_sin_duplicados faseW1 faseW2 10).2 _
     (of_decide_eq_true (by with_unfolding_all rfl))⟩

/-! ## C6: popularity fallback on empty preference lists -/

/-- C6: for an existing user whose preferences declare no favorite
categories, no favorite neighborhoods and no interest tags,
`recomendar_para_usuario` returns exactly `recomendar_populares limite`,
whatever the declared price range (the hypotheses say nothing about it). -/
theorem recomendar_sin_preferencias_delegacion (st : Store) (ahora : Int) (user_id : String)
    (limite : Nat) (cid : String) (user : User)
    (hparse : pyUUIDCanon user_id = some cid)
    (hfind : st.users.find? (fun u => u.id = cid) = some user)
    (hcat : (user.preferencias.getD Prefs.empty).categorias_favoritas = [])
    (hbar : (user.preferencias.getD Prefs.empty).barrios_preferidos = [])
    (htag : (user.preferencias.getD Prefs.empty).tags_interes = []) :
    recomendar_para_usuario st ahora user_id limite =
      .ok (recomendar_populares st ahora limite) := by
  unfold recomendar_para_usuario
  rw [hparse]
  dsimp only
  rw [hfind]
  dsimp only
  rw [hcat, hbar, htag]
  dsimp only [List.map_nil]
  rw [if_pos (by exact ⟨rfl, rfl, rfl⟩)]

/-- User id for the C6 witness. -/
def uidC6 : String := "00000000-0000-4000-8000-0000000000aa"

/-- A user who declares a price range but none of the three lists. -/
def userC6 : User := ⟨uidC6, some ⟨[], [], none, some ⟨some 0, some 5000⟩, []⟩⟩

/-- Store for the C6 witness. -/
def stC6 : Store :=
  { events := [mkEvent idA (some ⟨"c1", "Teatro"⟩) (some 10)],
    users := [userC6],
    interactions := [⟨uidC6, idA, .vista, 0⟩],
    impressions := [] }

/-- C6 witness: the delegation holds on a concrete store for a user with
a declared price range but empty preference lists. -/
theorem uidC6_canon : pyUUIDCanon uidC6 = some uidC6 :=
  of_decide_eq_true (by with_unfolding_all rfl)

theorem userC6_find : stC6.users.find? (fun u => u.id = uidC6) = some userC6 := by
  decide

theorem recomendar_sin_preferencias_delegacion_witness :
    recomendar_para_usuario stC6 0 uidC6 10 = .ok (recomendar_populares stC6 0 10) :=
  recomendar_sin_preferencias_delegacion stC6 0 uidC6 10 uidC6 userC6
    uidC6_canon userC6_find rfl rfl rfl

/-! ## C7: popularity scoring and selection -/

/-- Count of one event's interactions of one type. -/
def cuentaTipoEvento (inters : List Interaction) (eid : String) (t : InteractionType) : Nat :=
  (inters.filter (fun i => i.event_id = eid && i.tipo = t)).length

theorem sumPesos_cons (i : Interaction) (rest : List Interaction) (eid : String) :
    sumPesos (i :: rest) eid =
      (if i.event_id = eid then pesosPopularidad i.tipo else 0) + sumPesos rest eid := by
  unfold sumPesos
  rw [List.filter_cons]
  by_cases hid : i.event_id = eid
  · simp [hid]
  · simp [hid]

theorem cuentaTipoEvento_cons (i : Interaction) (rest : List Interaction) (eid : String)
    (t : InteractionType) :
    cuentaTipoEvento (i :: rest) eid t =
      (if i.event_id = eid ∧ i.tipo = t then 1 else 0) + cuentaTipoEvento rest eid t := by
  unfold cuentaTipoEvento
  rw [List.filter_cons]
  by_cases h1 : i.event_id = eid
  · by_cases h2 : i.tipo = t
    · simp [h1, h2, Nat.add_comm]
    · simp [h1, h2]
  · simp [h1]

theorem sumPesos_formula (inters : List Interaction) (eid : String) :
    sumPesos inters eid =
      3 * (cuentaTipoEvento inters eid .guardado : ℚ)
        + 3 * (cuentaTipoEvento inters eid .asistio : ℚ)
        + 2 * (cuentaTipoEvento inters eid .compartido : ℚ)
        + 1 * (cuentaTipoEvento inters eid .vista : ℚ)
        + (1 / 2) * (cuentaTipoEvento inters eid .clic : ℚ) := by
  induction inters with
  | nil => simp [sumPesos, cuentaTipoEvento]
  | cons i rest ih =>
    rw [sumPesos_cons, cuentaTipoEvento_cons, cuentaTipoEvento_cons, cuentaTipoEvento_cons,
      cuentaTipoEvento_cons, cuentaTipoEvento_cons, ih]
    by_cases hid : i.event_id = eid
    · cases htipo : i.tipo <;> simp [hid, htipo, pesosPopularidad] <;> push_cast <;> ring
    · simp [hid]

theorem puntajes_snd (inters : List Interaction) :
    ∀ p ∈ puntajesPopulares inters, p.2 = sumPesos inters p.1 := by
  intro p hp
  rcases List.mem_map.mp hp with ⟨eid, _, rfl⟩
  rfl

theorem fechaLE_trans :
    ∀ (a b c : Event), (decide (fechaKey a ≤ fechaKey b)) = true →
      (decide (fechaKey b ≤ fechaKey c)) = true →
      (decide (fechaKey a ≤ fechaKey c)) = true := by
  intro a b c h1 h2
  simp only [decide_eq_true_eq] at h1 h2 ⊢
  omega

theorem fechaLE_total :
    ∀ (a b : Event), ((decide (fechaKey a ≤ fechaKey b)) ||
      (decide (fechaKey b ≤ fechaKey a))) = true := by
  intro a b
  rcases le_total (fechaKey a) (fechaKey b) with h | h <;> simp [h]

theorem scoreGE_trans :
    ∀ (a b c : String × ℚ), (decide (b.2 ≤ a.2)) = true → (decide (c.2 ≤ b.2)) = true →
      (decide (c.2 ≤ a.2)) = true := by
  intro a b c h1 h2
  simp only [decide_eq_true_eq] at h1 h2 ⊢
  linarith

theorem scoreGE_total :
    ∀ (a b : String × ℚ), ((decide (b.2 ≤ a.2)) || (decide (a.2 ≤ b.2))) = true := by
  intro a b
  rcases le_total (b.2) (a.2) with h | h <;> simp [h]

/-- C7: the popularity score of every event is exactly
3·saves + 3·attended + 2·shares + 1·views + 0.5·clicks; the first
selection stage holds at most `limite` events, each future and drawn from
the `limite × 3` pool, in ascending start-date order; and the pool is
top-scoring — every scored event left out of the pool scores no more than
any event in it. -/
theorem recomendar_populares_estructura (st : Store) (ahora : Int) (limite : Nat) :
    (∀ eid, sumPesos st.interactions eid =
        3 * (cuentaTipoEvento st.interactions eid .guardado : ℚ)
          + 3 * (cuentaTipoEvento st.interactions eid .asistio : ℚ)
          + 2 * (cuentaTipoEvento st.interactions eid .compartido : ℚ)
          + 1 * (cuentaTipoEvento st.interactions eid .vista : ℚ)
          + (1 / 2) * (cuentaTipoEvento st.interactions eid .clic : ℚ)) ∧
      (popularesSeleccion st ahora limite).length ≤ limite ∧
      (∀ e ∈ popularesSeleccion st ahora limite,
        esFuturo ahora e = true ∧ e.id ∈ popularesPool st.interactions limite) ∧
      (popularesSeleccion st ahora limite).Pairwise
        (fun a b => fechaKey a ≤ fechaKey b) ∧
      (∀ a ∈ popularesPool st.interactions limite,
        ∀ b, b ∈ (puntajesPopulares st.interactions).map Prod.fst →
          b ∉ popularesPool st.interactions limite →
            sumPesos st.interactions b ≤ sumPesos st.interactions a) := by
  refine ⟨fun eid => sumPesos_formula st.interactions eid, ?_, ?_, ?_, ?_⟩
  · unfold popularesSeleccion
    split
    · simp
    · exact (List.length_take_le _ _).trans (le_refl _)
  · intro e he
    unfold popularesSeleccion at he
    split at he
    · simp at he
    · have h1 := (List.take_sublist _ _).subset he
      have h2 : e ∈ st.events.filter
          (fun e => (popularesPool st.interactions limite).contains e.id &&
            esFuturo ahora e) := by
        unfold sortPorFecha at h1
        exact (List.mergeSort_perm _ _).subset h1
      have h3 := List.of_mem_filter h2
      rw [Bool.and_eq_true] at h3
      exact ⟨h3.2, (contains_eq_true_iff_mem _ _).mp h3.1⟩
  · unfold popularesSeleccion
    split
    · simp
    · apply List.Pairwise.sublist (List.take_sublist _ _)
      have hs := List.sorted_mergeSort fechaLE_trans fechaLE_total
        (st.events.filter
          (fun e => (popularesPool st.interactions limite).contains e.id &&
            esFuturo ahora e))
      unfold sortPorFecha
      exact hs.imp (fun h => by simpa using h)
  · intro a ha b hb hnb
    have hperm : ((puntajesPopulares st.interactions).mergeSort
        (fun x y => decide (y.2 ≤ x.2))).Perm (puntajesPopulares st.interactions) :=
      List.mergeSort_perm _ _
    rw [popularesPool, ← List.map_take] at ha
    rcases List.mem_map.mp ha with ⟨pa, hpa, rfl⟩
    have hbs : b ∈ ((puntajesPopulares st.interactions).mergeSort
        (fun x y => decide (y.2 ≤ x.2))).map Prod.fst :=
      ((hperm.map Prod.fst).mem_iff).mpr hb
    rw [← List.take_append_drop (limite * 3)
      ((puntajesPopulares st.interactions).mergeSort (fun x y => decide (y.2 ≤ x.2))),
      List.map_append, List.mem_append] at hbs
    rcases hbs with hbl | hbr
    · exfalso
      apply hnb
      rw [popularesPool, ← List.map_take]
      exact hbl
    · rcases List.mem_map.mp hbr with ⟨pb, hpb, rfl⟩
      have hsorted := List.sorted_mergeSort scoreGE_trans scoreGE_total
        (puntajesPopulares st.interactions)
      rw [← List.take_append_drop (limite * 3)
        ((puntajesPopulares st.interactions).mergeSort
          (fun x y => decide (y.2 ≤ x.2)))] at hsorted
      have hrel := (List.pairwise_append.mp hsorted).2.2 pa hpa pb hpb
      rw [decide_eq_true_eq] at hrel
      have hpa2 : pa.2 = sumPesos st.interactions pa.1 :=
        puntajes_snd st.interactions pa (hperm.subset ((List.take_sublist _ _).subset hpa))
      have hpb2 : pb.2 = sumPesos st.interactions pb.1 :=
        puntajes_snd st.interactions pb (hperm.subset ((List.drop_sublist _ _).subset hpb))
      rw [hpa2, hpb2] at hrel
      exact hrel

/-- Store for the C7 witness: four interacted events with integer scores
3, 2, 1, 1 and ascending start dates. -/
def stC7 : Store :=
  { events := [mkEvent "e1" none (some 10), mkEvent "e2" none (some 20),
               mkEvent "e3" none (some 30), mkEvent "e4" none (some 40)],
    users := [],
    interactions := [⟨"u", "e1", .guardado, 0⟩, ⟨"u", "e2", .compartido, 0⟩,
                     ⟨"u", "e3", .vista, 0⟩, ⟨"u", "e4", .vista, 0⟩],
    impressions := [] }

/-- The event the C7 witness selects (top of the date-ordered selection). -/
def evC7a : Event := mkEvent "e1" none (some 10)

/-- C7 witness: the structure theorem applied on the concrete store with
`limite = 1` (pool of 3, `"e4"` left out). -/
theorem recomendar_populares_estructura_witness :
    (sumPesos stC7.interactions "e1" =
      3 * (cuentaTipoEvento stC7.interactions "e1" .guardado : ℚ)
        + 3 * (cuentaTipoEvento stC7.interactions "e1" .asistio : ℚ)
        + 2 * (cuentaTipoEvento stC7.interactions "e1" .compartido : ℚ)
        + 1 * (cuentaTipoEvento stC7.interactions "e1" .vista : ℚ)
        + (1 / 2) * (cuentaTipoEvento stC7.interactions "e1" .clic : ℚ)) ∧
      (esFuturo 0 evC7a = true ∧ evC7a.id ∈ popularesPool stC7.interactions 1) ∧
      sumPesos stC7.interactions "e4" ≤ sumPesos stC7.interactions "e1" :=
  ⟨(recomendar_populares_estructura stC7 0 1).1 "e1",
   (recomendar_populares_estructura stC7 0 1).2.2.1 evC7a
     (of_decide_eq_true (by with_unfolding_all rfl)),
   (recomendar_populares_estructura stC7 0 1).2.2.2.2 "e1"
     (of_decide_eq_true (by with_unfolding_all rfl)) "e4"
     (of_decide_eq_true (by with_unfolding_all rfl))
     (of_decide_eq_true (by with_unfolding_all rfl))⟩

/-! ## C10: which ids raise `ValueError`, and when `[]` is returned -/

/-- A syntactically valid UUID string in the claim's sense: the textual
8-4-4-4-12 form up to the normalization `uuid.UUID` performs (drop
`urn:`/`uuid:`, braces and dashes), i.e. exactly 32 hexadecimal digits
remain.  Claim-side definition, for comparison with the program's
actual parser `pyUUIDCanon`. -/
def uuidSintacticamenteValido (s : String) : Bool :=
  let t := removeSub "uuid:".data (removeSub "urn:".data s.data)
  let t := (stripLlaves t).filter (fun c => c ≠ Char.ofNat 45)
  t.length = 32 && t.all esHexDigito

/-- C10 (amended): both functions raise `ValueError` exactly when
`uuid.UUID` rejects the id string — a condition looser than syntactic
UUID validity, because its `int(hex, 16)` step also accepts a leading
`+`, surrounding whitespace, a `0x` prefix and underscores between
digits; the empty-list result for a missing entity is produced only when
the string is accepted by that parser and its parsed UUID value matches
no stored user / event.  (The parse happens before any lookup, and
nothing catches the exception.) -/
theorem ids_invalidos_valueerror (st : Store) (ahora : Int) (s : String) (limite : Nat) :
    (pyUUIDCanon s = none →
      recomendar_para_usuario st ahora s limite = .error .valueError ∧
        recomendar_similares st ahora s limite = .error .valueError) ∧
      (∀ cid, pyUUIDCanon s = some cid →
        (st.users.find? (fun u => u.id = cid) = none →
          recomendar_para_usuario st ahora s limite = .ok []) ∧
        (st.events.find? (fun e => e.id = cid) = none →
          recomendar_similares st ahora s limite = .ok [])) := by
  constructor
  · intro h
    constructor
    · unfold recomendar_para_usuario
      rw [h]
    · unfold recomendar_similares
      rw [h]
  · intro cid hc
    constructor
    · intro hu
      unfold recomendar_para_usuario
      rw [hc]
      dsimp only
      rw [hu]
    · intro he
      unfold recomendar_similares
      rw [hc]
      dsimp only
      rw [he]

/-- A `+` followed by 31 zeros: 32 characters, not a syntactically valid
UUID, yet accepted by `uuid.UUID` via `int(hex, 16)` (value 0). -/
def sPlusC10 : String := "+0000000000000000000000000000000"

/-- C10 counterexample: `"+0…0"` is not a syntactically valid UUID, but
the program does not raise `ValueError` on it — `uuid.UUID` parses it to
the nil UUID, the lookup misses, and both functions return `[]`.  This
refutes both halves of the claim: a non-UUID string that does not raise,
and an empty-list result for an id that is not a well-formed UUID. -/
theorem id_no_uuid_sin_valueerror :
    uuidSintacticamenteValido sPlusC10 = false ∧
      recomendar_para_usuario stVacio 0 sPlusC10 5 = .ok [] ∧
      recomendar_similares stVacio 0 sPlusC10 5 = .ok [] :=
  of_decide_eq_true (by with_unfolding_all rfl)

/-- A string that `uuid.UUID` rejects. -/
def sMalo : String := "no-es-un-uuid"

/-- A well-formed UUID matching nothing in the empty store. -/
def uuidLibre : String := "00000000-0000-4000-8000-0000000000ff"

/-- C10 witness: the theorem applied to a malformed id (errors) and to a
well-formed id absent from the store (empty lists). -/
theorem ids_invalidos_valueerror_witness :
    recomendar_para_usuario stVacio 0 sMalo 5 = .error .valueError ∧
      recomendar_similares stVacio 0 sMalo 5 = .error .valueError ∧
      recomendar_para_usuario stVacio 0 uuidLibre 5 = .ok [] ∧
      recomendar_similares stVacio 0 uuidLibre 5 = .ok [] :=
  ⟨((ids_invalidos_valueerror stVacio 0 sMalo 5).1
      (of_decide_eq_true (by with_unfolding_all rfl))).1,
   ((ids_invalidos_valueerror stVacio 0 sMalo 5).1
      (of_decide_eq_true (by with_unfolding_all rfl))).2,
   ((ids_invalidos_valueerror stVacio 0 uuidLibre 5).2 uuidLibre
      (of_decide_eq_true (by with_unfolding_all rfl))).1 rfl,
   ((ids_invalidos_valueerror stVacio 0 uuidLibre 5).2 uuidLibre
      (of_decide_eq_true (by with_unfolding_all rfl))).2 rfl⟩

end Bahoy
